import Mathlib

/-!
Verification of the plakar scheduling and daemon-control subsystem.

The development shallowly embeds three parts of the source:
* the daemon control plane (`startTasks`, `stopTasks`, `configureTasks`,
  `terminate`, `handleClient` dispatch) acting on the process-wide
  `SchedulerContext` singleton;
* the scheduler service's daily planning pass (`ScheduleForDate`);
* one tick of each task-runner loop (`backupTask`, `checkTask`,
  `restoreTask`, `syncTask`, `maintenanceTask`) together with
  `loadRepository`.

Machine integers are modelled as `Int`/`Nat`; `time.Time` and
`time.Duration` values as `Int` (nanoseconds); Go `nil`-able pointers as
`Option`; Go `(T, error)` returns as pairs with an `Option String` error.
Side effects on collaborators (cancelling an execution context, launching
a scheduler goroutine, closing a store) are made explicit as effect lists
or counters in the returned values.
-/

namespace Plakar

/-! ## Scheduler data model

`Schedule` is an interface in the source; only its `PlanForDate` method is
used by the code under verification, so it is embedded as that function.
A `Job` keeps the `Schedules` field used by `ScheduleForDate`; a
`Configuration`'s `Jobs` map is embedded as an association list (Go map
iteration order is irrelevant to the properties proved here). -/

structure Schedule where
  planForDate : Int → List Int

structure Job where
  Schedules : List Schedule

structure Configuration where
  Jobs : List (String × Job)

/-! ## Daemon control plane (`SchedulerContext` singleton)

The two run-state constants are `int8` values in Go; they are embedded as
`Nat` so that the source's bit test `state & AGENT_SCHEDULER_RUNNING != 0`
can be written verbatim. -/

def AGENT_SCHEDULER_STOPPED : Nat := 0

def AGENT_SCHEDULER_RUNNING : Nat := 1

/-- The `SchedulerContext` singleton. Execution contexts
(`appcontext.AppContext` values produced by `NewAppContextFrom`) are
modelled by identity: each freshly derived context gets the next id from
`nextCtxId`, and `schedulerCtx` holds the id of the active context, or
`none` for Go's `nil`. The `agentCtx` field and the mutex are not
modelled: the former is only used as the parent for fresh contexts and
the latter only serializes the operations modelled here as atomic
steps. -/
structure SchedulerContext where
  schedulerCtx : Option Nat
  schedulerConfig : Option Configuration
  schedulerState : Nat
  nextCtxId : Nat

/-- State of the singleton right after `Scheduler.Execute` creates it:
only the agent context is set, every other field is Go's zero value. -/
def initialSchedulerContext : SchedulerContext :=
  { schedulerCtx := none
    schedulerConfig := none
    schedulerState := 0
    nextCtxId := 0 }

/-- Observable side effects of a control-plane operation, in program
order: cancelling an execution context, launching a new Scheduler
Service goroutine under a configuration, and the daemon-shutdown path
taken by `terminate`. -/
inductive Effect where
  | cancelCtx (id : Nat)
  | launchScheduler (id : Nat) (config : Configuration)
  | daemonShutdown

/-- `startTasks` from the source: fails without a configuration, fails
when already running, otherwise derives a fresh execution context,
launches a Scheduler Service on it and marks the state `RUNNING`.
Returns the `(int, error)` pair, the new singleton state and the
effects performed. -/
def startTasks (s : SchedulerContext) :
    (Int × Option String) × SchedulerContext × List Effect :=
  match s.schedulerConfig with
  | none => ((1, some "agent scheduler does not have a configuration"), s, [])
  | some config =>
    if s.schedulerState &&& AGENT_SCHEDULER_RUNNING ≠ 0 then
      ((1, some "agent scheduler already running"), s, [])
    else
      let id := s.nextCtxId
      ((0, none),
       { s with
          schedulerCtx := some id
          schedulerState := AGENT_SCHEDULER_RUNNING
          nextCtxId := id + 1 },
       [Effect.launchScheduler id config])

/-- `stopTasks` from the source: fails when not running, otherwise
cancels the active execution context, marks the state `STOPPED` and
clears the stored context. (When running, `schedulerCtx` is always
non-`nil` — proved below — so the source's unconditional
`schedulerCtx.Cancel()` is embedded as cancelling it when present.) -/
def stopTasks (s : SchedulerContext) :
    (Int × Option String) × SchedulerContext × List Effect :=
  if s.schedulerState &&& AGENT_SCHEDULER_RUNNING = 0 then
    ((1, some "agent scheduler not running"), s, [])
  else
    ((0, none),
     { s with
        schedulerState := AGENT_SCHEDULER_STOPPED
        schedulerCtx := none },
     (s.schedulerCtx.map Effect.cancelCtx).toList)

/-- `configureTasks` from the source, parameterized by the outcome of
`scheduler.ParseConfigBytes(schedConfigBytes)` (that parser is outside
the sources shown; a request payload is therefore embedded as its parse
result). On a parse error the error is returned before the singleton is
touched. Otherwise, if an execution context is active it is cancelled
and a replacement Scheduler Service is launched on a fresh context under
the new configuration; the new configuration is stored in every case. -/
def configureTasks (parsed : Except String Configuration)
    (s : SchedulerContext) :
    (Int × Option String) × SchedulerContext × List Effect :=
  match parsed with
  | .error e => ((1, some e), s, [])
  | .ok schedConfig =>
    match s.schedulerCtx with
    | some old =>
      let id := s.nextCtxId
      ((0, none),
       { s with
          schedulerCtx := some id
          nextCtxId := id + 1
          schedulerConfig := some schedConfig },
       [Effect.cancelCtx old, Effect.launchScheduler id schedConfig])
    | none =>
      ((0, none), { s with schedulerConfig := some schedConfig }, [])

/-- Modelled from the spec: `terminate` calls the daemon-level `stop()`
(not shown in the sources), which "triggers full daemon shutdown
(process exit path), independent of the RUNNING/STOPPED distinction";
it does not mutate the singleton. -/
def terminate (s : SchedulerContext) :
    (Int × Option String) × SchedulerContext × List Effect :=
  ((0, none), s, [Effect.daemonShutdown])

/-- A control-plane request as dispatched by `handleClient`. A
`configure` request carries the parse outcome of its payload (see
`configureTasks`). -/
inductive Request where
  | start
  | stop
  | terminate
  | configure (parsed : Except String Configuration)
  | unknown (t : String)

/-- The `Response{ExitCode, Err}` written back to the client. A
successful dispatch leaves `Err` at Go's zero value `""`. -/
structure Response where
  ExitCode : Int
  Err : String
deriving DecidableEq

/-- How `handleClient` turns a handler's `(int, error)` result into the
`Response`: a non-`nil` error yields `Response{1, err.Error()}`, success
yields `Response{0, ""}`. -/
def respond : Int × Option String → Response
  | (_, some e) => ⟨1, e⟩
  | (_, none) => ⟨0, ""⟩

/-- The dispatch switch of `handleClient`: each known request type runs
its handler and wraps the result via `respond`; an unknown request type
answers with an error and performs nothing. -/
def handleRequest (s : SchedulerContext) (r : Request) :
    Response × SchedulerContext × List Effect :=
  match r with
  | .start => let out := startTasks s; (respond out.1, out.2)
  | .stop => let out := stopTasks s; (respond out.1, out.2)
  | .terminate => let out := terminate s; (respond out.1, out.2)
  | .configure parsed => let out := configureTasks parsed s; (respond out.1, out.2)
  | .unknown t => (⟨1, "unknown command: " ++ t⟩, s, [])

/-- Run a sequence of control-plane requests against the singleton,
ignoring responses and effects. -/
def runRequests (s : SchedulerContext) (rs : List Request) :
    SchedulerContext :=
  rs.foldl (fun st r => (handleRequest st r).2.1) s

/-- A request sequence applies a configuration exactly when it contains
a `configure` request whose payload deserialized successfully. -/
def appliesConfiguration : Request → Bool
  | .configure (.ok _) => true
  | _ => false

/-! ## Scheduler service: daily planning pass

`ScheduleForDate` walks every job's schedules, expands each schedule for
the date, and arms a job-ready event on the job-ready engine
(`s.sched.ScheduleAt(sj, t)`) for every expansion not strictly in the
past; past expansions are only logged. The engine's pending set is
embedded as the list of armed `(job name, timestamp)` pairs, threaded
through the loops exactly as the source mutates `s.sched`. -/

/-- The inner loop of `ScheduleForDate` over one schedule's
`PlanForDate` expansion: `t.Before(date)` skips (debug log only),
otherwise the event is armed on the engine. -/
def armPlan (engine : List (String × Int)) (name : String) (date : Int) :
    List Int → List (String × Int)
  | [] => engine
  | t :: ts =>
    if t < date then armPlan engine name date ts
    else armPlan (engine ++ [(name, t)]) name date ts

/-- `SchedulerService.ScheduleForDate` from the source: iterate over the
configuration's jobs and each job's schedules, arming events via
`armPlan`. Returns the job-ready engine's pending set after the pass. -/
def ScheduleForDate (config : Configuration)
    (engine : List (String × Int)) (date : Int) : List (String × Int) :=
  config.Jobs.foldl
    (fun eng nameJob =>
      nameJob.2.Schedules.foldl
        (fun eng2 schedule =>
          armPlan eng2 nameJob.1 date (schedule.planForDate date))
        eng)
    engine

/-- Specification-side description of one planning pass: for every job
and every schedule, exactly the `PlanForDate` timestamps that are not
strictly before the date, as `(job name, timestamp)` events. -/
def plannedEvents (config : Configuration) (date : Int) :
    List (String × Int) :=
  config.Jobs.flatMap fun nameJob =>
    nameJob.2.Schedules.flatMap fun schedule =>
      ((schedule.planForDate date).filter fun t => !decide (t < date)).map
        fun t => (nameJob.1, t)

/-! ## Task runner loops

Each loop body runs once per tick. The collaborators invoked on a tick
(`storage.Open`, `repository.New`, `DoBackup`, `Execute` of the
check/restore/sync/maintenance/rm subcommands, ...) are opaque
operations; one tick is therefore embedded as a function of the results
those collaborators would return, and it records the observable actions
of the tick: the finalized report, the retention cutoff passed to the
purge, and how often the repository and store were closed. -/

/-- Results of the collaborator calls made by `loadRepository`, in call
order. `passphrase` is the optional `"passphrase"` entry of the store
configuration; `versionOk` is the comparison of the repository version
against `storage.VERSION`; `canaryOk` is `encryption.VerifyCanary`. -/
structure LoadEnv where
  reloadConfigErr : Option String
  getRepositoryErr : Option String
  storageOpenErr : Option String
  configFromBytesErr : Option String
  versionOk : Bool
  passphrase : Option String
  deriveKeyErr : Option String
  canaryOk : Bool
  repositoryNewErr : Option String

/-- Outcome of `loadRepository`: the `error` result handed to the
caller (`.ok ()` when a repository/store pair is returned), whether
`storage.Open` succeeded (a store was opened), how often the store was
closed inside `loadRepository` itself, and whether a repository handle
was created. -/
structure LoadResult where
  res : Except String Unit
  storeOpened : Bool
  storeClosedInLoad : Nat
  repoCreated : Bool

/-- `loadRepository` from the source: reload the configuration, look up
the store configuration, open the storage, parse and version-check the
repository configuration, optionally derive and verify an encryption
key, then build the repository handle. Every failure after the store
was opened closes it before returning (including the `repository.New`
failure, which returns the already-closed store to the caller). -/
def loadRepository (env : LoadEnv) : LoadResult :=
  match env.reloadConfigErr with
  | some e => ⟨.error ("could not load configuration: " ++ e), false, 0, false⟩
  | none =>
  match env.getRepositoryErr with
  | some e =>
      ⟨.error ("unable to get repository configuration: " ++ e), false, 0, false⟩
  | none =>
  match env.storageOpenErr with
  | some e => ⟨.error ("unable to open storage: " ++ e), false, 0, false⟩
  | none =>
  match env.configFromBytesErr with
  | some e =>
      ⟨.error ("unable to read repository configuration: " ++ e), true, 1, false⟩
  | none =>
  if !env.versionOk then
    ⟨.error "incompatible repository version", true, 1, false⟩
  else
  match env.passphrase with
  | some _ =>
    match env.deriveKeyErr with
    | some e => ⟨.error ("error deriving key: " ++ e), true, 1, false⟩
    | none =>
      if !env.canaryOk then ⟨.error "invalid passphrase", true, 1, false⟩
      else
        match env.repositoryNewErr with
        | some e => ⟨.error ("unable to open repository: " ++ e), true, 1, false⟩
        | none => ⟨.ok (), true, 0, true⟩
  | none =>
    match env.repositoryNewErr with
    | some e => ⟨.error ("unable to open repository: " ++ e), true, 1, false⟩
    | none => ⟨.ok (), true, 0, true⟩

/-- Result of one opaque subcommand `Execute(ctx, repo)` call. -/
structure OpResult where
  retval : Int
  err : Option String
deriving DecidableEq

/-- Result of `backupSubcommand.DoBackup(ctx, repo)`: exit code, error,
snapshot id and optional non-fatal warning. -/
structure BackupOpResult where
  retval : Int
  err : Option String
  snapId : Nat
  warning : Option String
deriving DecidableEq

/-- Terminal outcome of a tick's report: `TaskDone`, `TaskWarning` or
`TaskFailed`. -/
inductive TaskFinal where
  | done
  | warning
  | failed
deriving DecidableEq

/-- What the loop does after the tick body: keep looping (every tick
body path ends this way; only context cancellation leaves the loop). -/
inductive LoopAction where
  | continueLoop
  | returnLoop
deriving DecidableEq

/-- Observable actions of one tick of a task-runner loop. `report` is
`none` when no report object was created for the tick, otherwise the
final state it was left in. `storeCloses`/`repoCloses` count every
`Close()` on the tick's store/repository handle, inside
`loadRepository` and in the loop body together. -/
structure TickOut where
  report : Option TaskFinal
  purgeCutoff : Option Int
  storeOpened : Bool
  storeCloses : Nat
  repoCreated : Bool
  repoCloses : Nat
  action : LoopAction
deriving DecidableEq

/-- One `<-tick` iteration of `Scheduler.backupTask`: load the
repository (on failure, log and `continue` with no report); start a
report; run the backup (failure finalizes the report as failed and goes
to `close`); when `Retention != 0`, purge backups older than
`now - Retention` (failure finalizes as warning and goes to `close`);
otherwise finalize as warning when the backup reported a warning, else
as done; `close:` closes the repository and the store. -/
def backupTaskTick (env : LoadEnv) (b : BackupOpResult) (purge : OpResult)
    (Retention : Int) (now : Int) : TickOut :=
  let L := loadRepository env
  match L.res with
  | .error _ =>
    ⟨none, none, L.storeOpened, L.storeClosedInLoad, L.repoCreated, 0,
     .continueLoop⟩
  | .ok _ =>
    if b.err ≠ none ∨ b.retval ≠ 0 then
      ⟨some .failed, none, L.storeOpened, L.storeClosedInLoad + 1,
       L.repoCreated, 1, .continueLoop⟩
    else if Retention ≠ 0 then
      if purge.err ≠ none ∨ purge.retval ≠ 0 then
        ⟨some .warning, some (now - Retention), L.storeOpened,
         L.storeClosedInLoad + 1, L.repoCreated, 1, .continueLoop⟩
      else if b.warning ≠ none then
        ⟨some .warning, some (now - Retention), L.storeOpened,
         L.storeClosedInLoad + 1, L.repoCreated, 1, .continueLoop⟩
      else
        ⟨some .done, some (now - Retention), L.storeOpened,
         L.storeClosedInLoad + 1, L.repoCreated, 1, .continueLoop⟩
    else if b.warning ≠ none then
      ⟨some .warning, none, L.storeOpened, L.storeClosedInLoad + 1,
       L.repoCreated, 1, .continueLoop⟩
    else
      ⟨some .done, none, L.storeOpened, L.storeClosedInLoad + 1,
       L.repoCreated, 1, .continueLoop⟩

/-- One `<-tick` iteration of `Scheduler.checkTask`: load (failure logs
and continues with no report), report started, check executed, report
finalized as failed on error/non-zero exit and as done otherwise, then
repository and store are closed. -/
def checkTaskTick (env : LoadEnv) (c : OpResult) : TickOut :=
  let L := loadRepository env
  match L.res with
  | .error _ =>
    ⟨none, none, L.storeOpened, L.storeClosedInLoad, L.repoCreated, 0,
     .continueLoop⟩
  | .ok _ =>
    if c.err ≠ none ∨ c.retval ≠ 0 then
      ⟨some .failed, none, L.storeOpened, L.storeClosedInLoad + 1,
       L.repoCreated, 1, .continueLoop⟩
    else
      ⟨some .done, none, L.storeOpened, L.storeClosedInLoad + 1,
       L.repoCreated, 1, .continueLoop⟩

/-- One `<-tick` iteration of `Scheduler.restoreTask`; structurally
identical to `checkTaskTick` with the restore subcommand. -/
def restoreTaskTick (env : LoadEnv) (r : OpResult) : TickOut :=
  let L := loadRepository env
  match L.res with
  | .error _ =>
    ⟨none, none, L.storeOpened, L.storeClosedInLoad, L.repoCreated, 0,
     .continueLoop⟩
  | .ok _ =>
    if r.err ≠ none ∨ r.retval ≠ 0 then
      ⟨some .failed, none, L.storeOpened, L.storeClosedInLoad + 1,
       L.repoCreated, 1, .continueLoop⟩
    else
      ⟨some .done, none, L.storeOpened, L.storeClosedInLoad + 1,
       L.repoCreated, 1, .continueLoop⟩

/-- One `<-tick` iteration of the loop inside `Scheduler.syncTask`;
structurally identical to `checkTaskTick` with the sync subcommand. -/
def syncTaskTick (env : LoadEnv) (sy : OpResult) : TickOut :=
  let L := loadRepository env
  match L.res with
  | .error _ =>
    ⟨none, none, L.storeOpened, L.storeClosedInLoad, L.repoCreated, 0,
     .continueLoop⟩
  | .ok _ =>
    if sy.err ≠ none ∨ sy.retval ≠ 0 then
      ⟨some .failed, none, L.storeOpened, L.storeClosedInLoad + 1,
       L.repoCreated, 1, .continueLoop⟩
    else
      ⟨some .done, none, L.storeOpened, L.storeClosedInLoad + 1,
       L.repoCreated, 1, .continueLoop⟩

/-- One `<-tick` iteration of `Scheduler.maintenanceTask`: load (failure
logs and continues with no report), maintenance executed (failure
finalizes as failed and goes to `close`); when `Retention != 0`, purge
with cutoff `now - Retention` (failure finalizes as warning and goes to
`close`); otherwise the report is finalized as done; `close:` closes
the repository and the store. -/
def maintenanceTaskTick (env : LoadEnv) (m : OpResult) (purge : OpResult)
    (Retention : Int) (now : Int) : TickOut :=
  let L := loadRepository env
  match L.res with
  | .error _ =>
    ⟨none, none, L.storeOpened, L.storeClosedInLoad, L.repoCreated, 0,
     .continueLoop⟩
  | .ok _ =>
    if m.err ≠ none ∨ m.retval ≠ 0 then
      ⟨some .failed, none, L.storeOpened, L.storeClosedInLoad + 1,
       L.repoCreated, 1, .continueLoop⟩
    else if Retention ≠ 0 then
      if purge.err ≠ none ∨ purge.retval ≠ 0 then
        ⟨some .warning, some (now - Retention), L.storeOpened,
         L.storeClosedInLoad + 1, L.repoCreated, 1, .continueLoop⟩
      else
        ⟨some .done, some (now - Retention), L.storeOpened,
         L.storeClosedInLoad + 1, L.repoCreated, 1, .continueLoop⟩
    else
      ⟨some .done, none, L.storeOpened, L.storeClosedInLoad + 1,
       L.repoCreated, 1, .continueLoop⟩

/-! ### The sync task's direction check

`syncTask` validates `task.Direction` before entering its tick loop; an
unrecognized direction cancels the owning execution context
(`s.ctx.Cancel()`) and returns without ever ticking. -/

/-- Modelled from the spec: the three `SyncDirection` constants compared
against `task.Direction` (their declaration is outside the sources
shown; the spec names the directions push "to", pull "from" and
bidirectional "with"). -/
def SyncDirectionTo : String := "to"

/-- Modelled from the spec: see `SyncDirectionTo`. -/
def SyncDirectionFrom : String := "from"

/-- Modelled from the spec: see `SyncDirectionTo`. -/
def SyncDirectionWith : String := "with"

/-- Whole run of `Scheduler.syncTask`: whether the owning execution
context was cancelled by the direction check, and the ticks the loop
performed (given the collaborator results each tick would observe). -/
structure SyncRun where
  cancelledOwner : Bool
  ticks : List TickOut
deriving DecidableEq

/-- `Scheduler.syncTask` from the source: the direction check happens
before the loop; `to`/`from`/`with` proceed into the tick loop, any
other value cancels the owning execution context and returns. -/
def syncTask (Direction : String) (tickInputs : List (LoadEnv × OpResult)) :
    SyncRun :=
  if Direction = SyncDirectionTo then
    ⟨false, tickInputs.map fun p => syncTaskTick p.1 p.2⟩
  else if Direction = SyncDirectionFrom then
    ⟨false, tickInputs.map fun p => syncTaskTick p.1 p.2⟩
  else if Direction = SyncDirectionWith then
    ⟨false, tickInputs.map fun p => syncTaskTick p.1 p.2⟩
  else
    ⟨true, []⟩

/-! ## Lemmas about the planning pass -/

/-- `armPlan` appends to the engine exactly the non-past expansion
timestamps, paired with the job name, in plan order. -/
theorem armPlan_eq (name : String) (date : Int) :
    ∀ (ts : List Int) (engine : List (String × Int)),
      armPlan engine name date ts
        = engine ++ (ts.filter fun t => !decide (t < date)).map fun t => (name, t)
  | [], engine => by simp [armPlan]
  | t :: ts, engine => by
    by_cases h : t < date
    · simp [armPlan, h, armPlan_eq name date ts engine]
    · simp only [armPlan, if_neg h, armPlan_eq name date ts (engine ++ [(name, t)]),
        List.filter_cons, decide_eq_true h]
      simp [h]

/-- A fold whose step appends a function of the element equals the
original accumulator followed by the concatenation of those pieces. -/
theorem foldl_append_of_step {α β : Type} (f : List β → α → List β)
    (g : α → List β) (hf : ∀ e x, f e x = e ++ g x) :
    ∀ (l : List α) (e : List β), l.foldl f e = e ++ l.flatMap g
  | [], e => by simp
  | x :: l, e => by
    rw [List.foldl_cons, hf, foldl_append_of_step f g hf l, List.append_assoc,
      List.flatMap_cons]

/-- One planning pass appends exactly `plannedEvents` to the job-ready
engine's pending set. -/
theorem ScheduleForDate_eq (config : Configuration)
    (engine : List (String × Int)) (date : Int) :
    ScheduleForDate config engine date = engine ++ plannedEvents config date := by
  unfold ScheduleForDate plannedEvents
  refine foldl_append_of_step _ _ (fun e nameJob => ?_) config.Jobs engine
  refine foldl_append_of_step _ _ (fun e2 schedule => ?_) nameJob.2.Schedules e
  exact armPlan_eq nameJob.1 date (schedule.planForDate date) e2

/-! ## Lemmas about the control plane -/

/-- Invariant on the singleton maintained by every control-plane
request: the run state is one of the two declared constants, it is
`RUNNING` exactly when an execution context is stored, and a
configuration is stored whenever the state is `RUNNING`. -/
def SingletonInv (s : SchedulerContext) : Prop :=
  (s.schedulerState = AGENT_SCHEDULER_STOPPED ∨
    s.schedulerState = AGENT_SCHEDULER_RUNNING) ∧
  (s.schedulerState = AGENT_SCHEDULER_RUNNING ↔ s.schedulerCtx ≠ none) ∧
  (s.schedulerState = AGENT_SCHEDULER_RUNNING → s.schedulerConfig ≠ none)

theorem singletonInv_initial : SingletonInv initialSchedulerContext := by
  refine ⟨Or.inl rfl, ?_, ?_⟩ <;>
    simp [initialSchedulerContext, AGENT_SCHEDULER_RUNNING, AGENT_SCHEDULER_STOPPED]

theorem singletonInv_startTasks (s : SchedulerContext) (h : SingletonInv s) :
    SingletonInv (startTasks s).2.1 := by
  obtain ⟨hst, hiff, hcfg⟩ := h
  cases hc : s.schedulerConfig with
  | none =>
    have h21 : (startTasks s).2.1 = s := by simp [startTasks, hc]
    rw [h21]; exact ⟨hst, hiff, hcfg⟩
  | some cfg =>
    cases hst with
    | inr h1 =>
      have h21 : (startTasks s).2.1 = s := by
        simp [startTasks, hc, h1, AGENT_SCHEDULER_RUNNING]
      rw [h21]; exact ⟨Or.inr h1, hiff, hcfg⟩
    | inl h0 =>
      have h21 : (startTasks s).2.1 =
          { s with
             schedulerCtx := some s.nextCtxId
             schedulerState := AGENT_SCHEDULER_RUNNING
             nextCtxId := s.nextCtxId + 1 } := by
        simp [startTasks, hc, h0, AGENT_SCHEDULER_STOPPED, AGENT_SCHEDULER_RUNNING]
      rw [h21]
      exact ⟨Or.inr rfl, by simp, by simp [hc]⟩

theorem singletonInv_stopTasks (s : SchedulerContext) (h : SingletonInv s) :
    SingletonInv (stopTasks s).2.1 := by
  obtain ⟨hst, hiff, hcfg⟩ := h
  cases hst with
  | inl h0 =>
    have h21 : (stopTasks s).2.1 = s := by
      simp [stopTasks, h0, AGENT_SCHEDULER_STOPPED, AGENT_SCHEDULER_RUNNING]
    rw [h21]; exact ⟨Or.inl h0, hiff, hcfg⟩
  | inr h1 =>
    have h21 : (stopTasks s).2.1 =
        { s with
           schedulerState := AGENT_SCHEDULER_STOPPED
           schedulerCtx := none } := by
      simp [stopTasks, h1, AGENT_SCHEDULER_RUNNING]
    rw [h21]
    refine ⟨Or.inl rfl, ?_, ?_⟩ <;>
      simp [AGENT_SCHEDULER_RUNNING, AGENT_SCHEDULER_STOPPED]

theorem singletonInv_configureTasks (parsed : Except String Configuration)
    (s : SchedulerContext) (h : SingletonInv s) :
    SingletonInv (configureTasks parsed s).2.1 := by
  obtain ⟨hst, hiff, hcfg⟩ := h
  unfold configureTasks
  cases parsed with
  | error e => exact ⟨hst, hiff, hcfg⟩
  | ok cfg =>
    cases hctx : s.schedulerCtx with
    | none =>
      refine ⟨hst, ?_, ?_⟩ <;> simp_all
    | some old =>
      have hrun : s.schedulerState = AGENT_SCHEDULER_RUNNING := by
        rw [hiff, hctx]; simp
      refine ⟨hst, ?_, ?_⟩ <;> simp [hrun]

theorem singletonInv_handleRequest (s : SchedulerContext) (r : Request)
    (h : SingletonInv s) : SingletonInv (handleRequest s r).2.1 := by
  cases r with
  | start => exact singletonInv_startTasks s h
  | stop => exact singletonInv_stopTasks s h
  | terminate => exact h
  | configure parsed => exact singletonInv_configureTasks parsed s h
  | unknown t => exact h

theorem runRequests_cons (s : SchedulerContext) (r : Request)
    (rs : List Request) :
    runRequests s (r :: rs) = runRequests (handleRequest s r).2.1 rs := rfl

theorem singletonInv_runRequests :
    ∀ (rs : List Request) (s : SchedulerContext), SingletonInv s →
      SingletonInv (runRequests s rs)
  | [], _, h => h
  | r :: rs, s, h => by
    rw [runRequests_cons]
    exact singletonInv_runRequests rs _ (singletonInv_handleRequest s r h)

theorem startTasks_noConfig (s : SchedulerContext)
    (h : s.schedulerConfig = none) :
    startTasks s = ((1, some "agent scheduler does not have a configuration"), s, []) := by
  simp [startTasks, h]

theorem startTasks_running (s : SchedulerContext) (hInv : SingletonInv s)
    (h : s.schedulerState = AGENT_SCHEDULER_RUNNING) :
    startTasks s = ((1, some "agent scheduler already running"), s, []) := by
  obtain ⟨cfg, hc⟩ := Option.ne_none_iff_exists'.mp (hInv.2.2 h)
  have hg : s.schedulerState &&& AGENT_SCHEDULER_RUNNING ≠ 0 := by
    rw [h]; decide
  simp [startTasks, hc, hg]

theorem stopTasks_stopped (s : SchedulerContext)
    (h : s.schedulerState = AGENT_SCHEDULER_STOPPED) :
    stopTasks s = ((1, some "agent scheduler not running"), s, []) := by
  have hg : s.schedulerState &&& AGENT_SCHEDULER_RUNNING = 0 := by
    rw [h]; decide
  simp [stopTasks, hg]

/-- A request that does not apply a configuration leaves an absent
configuration absent. -/
theorem handleRequest_config_none (s : SchedulerContext) (r : Request)
    (hr : (!appliesConfiguration r) = true) (h : s.schedulerConfig = none) :
    (handleRequest s r).2.1.schedulerConfig = none := by
  cases r with
  | start => simp [handleRequest, startTasks, h]
  | stop =>
    by_cases hg : s.schedulerState &&& AGENT_SCHEDULER_RUNNING = 0 <;>
      simp [handleRequest, stopTasks, hg, h]
  | terminate => simpa [handleRequest, terminate] using h
  | configure parsed =>
    cases parsed with
    | error e => simpa [handleRequest, configureTasks] using h
    | ok cfg => simp [appliesConfiguration] at hr
  | unknown t => simpa [handleRequest] using h

theorem runRequests_config_none :
    ∀ (rs : List Request) (s : SchedulerContext),
      rs.all (fun r => !appliesConfiguration r) = true →
      s.schedulerConfig = none →
      (runRequests s rs).schedulerConfig = none
  | [], _, _, h => h
  | r :: rs, s, hall, h => by
    rw [List.all_cons, Bool.and_eq_true] at hall
    rw [runRequests_cons]
    exact runRequests_config_none rs _ hall.2
      (handleRequest_config_none s r hall.1 h)

/-! ## Claim theorems -/

/-- C1: for every sequence of control-plane requests, a `start` request
when no configuration has ever been applied answers exit code 1 with
error "agent scheduler does not have a configuration"; a `start`
request while the run state is `RUNNING` answers exit code 1 with
"agent scheduler already running"; a `stop` request while the run state
is `STOPPED` answers exit code 1 with "agent scheduler not running";
and in each failure case the singleton is left unchanged (and no
execution context is cancelled or launched). -/
theorem controlPlane_failure_responses (rs : List Request) :
    (rs.all (fun r => !appliesConfiguration r) = true →
      handleRequest (runRequests initialSchedulerContext rs) Request.start =
        (⟨1, "agent scheduler does not have a configuration"⟩,
         runRequests initialSchedulerContext rs, [])) ∧
    ((runRequests initialSchedulerContext rs).schedulerState =
        AGENT_SCHEDULER_RUNNING →
      handleRequest (runRequests initialSchedulerContext rs) Request.start =
        (⟨1, "agent scheduler already running"⟩,
         runRequests initialSchedulerContext rs, [])) ∧
    ((runRequests initialSchedulerContext rs).schedulerState =
        AGENT_SCHEDULER_STOPPED →
      handleRequest (runRequests initialSchedulerContext rs) Request.stop =
        (⟨1, "agent scheduler not running"⟩,
         runRequests initialSchedulerContext rs, [])) := by
  refine ⟨fun hall => ?_, fun hrun => ?_, fun hstop => ?_⟩
  · have hc := runRequests_config_none rs initialSchedulerContext hall rfl
    simp [handleRequest, startTasks_noConfig _ hc, respond]
  · have hInv := singletonInv_runRequests rs _ singletonInv_initial
    simp [handleRequest, startTasks_running _ hInv hrun, respond]
  · simp [handleRequest, stopTasks_stopped _ hstop, respond]

/-- Witness for C1: after no requests a `start` is rejected for lack of
configuration and a `stop` for not running; after a successful
`configure` followed by `start`, a second `start` is rejected as
already running. -/
theorem controlPlane_failure_responses_witness :
    (handleRequest (runRequests initialSchedulerContext []) Request.start =
      (⟨1, "agent scheduler does not have a configuration"⟩,
       runRequests initialSchedulerContext [], [])) ∧
    (handleRequest
        (runRequests initialSchedulerContext
          [Request.configure (.ok ⟨[]⟩), Request.start]) Request.start =
      (⟨1, "agent scheduler already running"⟩,
       runRequests initialSchedulerContext
         [Request.configure (.ok ⟨[]⟩), Request.start], [])) ∧
    (handleRequest (runRequests initialSchedulerContext []) Request.stop =
      (⟨1, "agent scheduler not running"⟩,
       runRequests initialSchedulerContext [], [])) :=
  ⟨(controlPlane_failure_responses []).1 (by rfl),
   (controlPlane_failure_responses
      [Request.configure (.ok ⟨[]⟩), Request.start]).2.1 (by rfl),
   (controlPlane_failure_responses []).2.2 (by rfl)⟩

/-- C2: a `configure` request whose payload deserializes successfully
always stores the new configuration and succeeds; when an execution
context is active, exactly one context (the previous one) is cancelled
and exactly one replacement Scheduler Service is launched under the new
configuration, without any intervening stop/start (the run state is
untouched); when no context is active, none is created and nothing is
cancelled or launched. -/
theorem configureTasks_success_behavior (s : SchedulerContext)
    (cfg : Configuration) :
    ((configureTasks (.ok cfg) s).2.1.schedulerConfig = some cfg) ∧
    ((configureTasks (.ok cfg) s).1 = (0, none)) ∧
    ((configureTasks (.ok cfg) s).2.1.schedulerState = s.schedulerState) ∧
    (∀ old, s.schedulerCtx = some old →
      (configureTasks (.ok cfg) s).2.2 =
        [Effect.cancelCtx old, Effect.launchScheduler s.nextCtxId cfg] ∧
      (configureTasks (.ok cfg) s).2.1.schedulerCtx = some s.nextCtxId) ∧
    (s.schedulerCtx = none →
      (configureTasks (.ok cfg) s).2.2 = [] ∧
      (configureTasks (.ok cfg) s).2.1.schedulerCtx = none) := by
  cases hctx : s.schedulerCtx with
  | none =>
    refine ⟨by simp [configureTasks, hctx], by simp [configureTasks, hctx],
      by simp [configureTasks, hctx], fun old hold => ?_, fun _ => ?_⟩
    · simp at hold
    · simp [configureTasks, hctx]
  | some a =>
    refine ⟨by simp [configureTasks, hctx], by simp [configureTasks, hctx],
      by simp [configureTasks, hctx], fun old hold => ?_, fun hnone => ?_⟩
    · injection hold with hao
      subst hao
      exact ⟨by simp [configureTasks, hctx], by simp [configureTasks, hctx]⟩
    · simp at hnone

/-- Witness for C2: reconfiguring a singleton whose active context has
id 5 and whose next fresh id is 7 cancels context 5 and launches one
replacement scheduler on context 7 under the new configuration. -/
theorem configureTasks_success_behavior_witness :
    (configureTasks (.ok ⟨[]⟩) ⟨some 5, none, 1, 7⟩).2.2 =
      [Effect.cancelCtx 5, Effect.launchScheduler 7 ⟨[]⟩] ∧
    (configureTasks (.ok ⟨[]⟩) ⟨some 5, none, 1, 7⟩).2.1.schedulerCtx =
      some 7 :=
  (configureTasks_success_behavior ⟨some 5, none, 1, 7⟩ ⟨[]⟩).2.2.2.1 5 rfl

/-- C10: a `configure` request whose payload fails to deserialize
returns the parse error before touching the singleton: the stored
configuration, run state and execution context are unchanged and no
scheduler is cancelled or launched; `handleClient` answers exit code 1
with the parse error. -/
theorem configureTasks_parse_error_no_effect (s : SchedulerContext)
    (e : String) :
    configureTasks (.error e) s = ((1, some e), s, []) ∧
    handleRequest s (.configure (.error e)) = (⟨1, e⟩, s, []) :=
  ⟨rfl, rfl⟩

/-- C9: in every state of the singleton reachable from its initial
state by any sequence of start/stop/configure/terminate (or unknown)
requests, the run state is `RUNNING` exactly when the stored scheduler
execution context is non-nil, and a configuration is stored whenever
the run state is `RUNNING`. -/
theorem reachable_singleton_invariant (rs : List Request) :
    ((runRequests initialSchedulerContext rs).schedulerState =
        AGENT_SCHEDULER_RUNNING ↔
      (runRequests initialSchedulerContext rs).schedulerCtx ≠ none) ∧
    ((runRequests initialSchedulerContext rs).schedulerState =
        AGENT_SCHEDULER_RUNNING →
      (runRequests initialSchedulerContext rs).schedulerConfig ≠ none) :=
  ⟨(singletonInv_runRequests rs _ singletonInv_initial).2.1,
   (singletonInv_runRequests rs _ singletonInv_initial).2.2⟩

/-- Witness for C9: after configure-then-start the run state is
`RUNNING`, so by the invariant a configuration is stored. -/
theorem reachable_singleton_invariant_witness :
    (runRequests initialSchedulerContext
      [Request.configure (.ok ⟨[]⟩), Request.start]).schedulerConfig ≠ none :=
  (reachable_singleton_invariant
    [Request.configure (.ok ⟨[]⟩), Request.start]).2 (by rfl)

/-- C3: for every configuration, planning instant `d` and engine state,
`ScheduleForDate` arms, for each job and each of its schedules, exactly
the timestamps of `PlanForDate(d)` that are not strictly before `d`
(appended to the engine's pending set in plan order), and every armed
timestamp is not strictly before `d` — a strictly-past timestamp is
only logged, never armed, and the engine only ever dispatches armed
events. -/
theorem scheduleForDate_arms_exactly_nonpast (config : Configuration)
    (engine : List (String × Int)) (date : Int) :
    ScheduleForDate config engine date = engine ++ plannedEvents config date ∧
    (plannedEvents config date).all (fun p => !decide (p.2 < date)) = true := by
  refine ⟨ScheduleForDate_eq config engine date, ?_⟩
  simp only [List.all_eq_true, plannedEvents, List.mem_flatMap, List.mem_map,
    List.mem_filter]
  rintro p ⟨nj, hnj, sch, hsch, t, ⟨hplan, ht⟩, rfl⟩
  simpa using ht

/-- C7: with a fixed configuration and date, two successive planning
passes each arm exactly the same list of (job, timestamp) job-ready
events (`plannedEvents`); re-planning is idempotent per calendar day up
to the explicit duplication caused by re-invocation. -/
theorem scheduleForDate_idempotent_per_day (config : Configuration)
    (engine : List (String × Int)) (date : Int) :
    ScheduleForDate config (ScheduleForDate config engine date) date =
      engine ++ plannedEvents config date ++ plannedEvents config date := by
  rw [ScheduleForDate_eq, ScheduleForDate_eq]

/-! ## Lemmas about the task runner loops -/

/-- `loadRepository` has exactly three shapes of outcome: failure before
the store is opened (nothing to close), failure after the store is
opened (the store already closed once inside `loadRepository`, no
repository created), and success (store open and not yet closed,
repository created). -/
theorem loadRepository_cases (env : LoadEnv) :
    (∃ msg, loadRepository env = ⟨.error msg, false, 0, false⟩) ∨
    (∃ msg, loadRepository env = ⟨.error msg, true, 1, false⟩) ∨
    loadRepository env = ⟨.ok (), true, 0, true⟩ := by
  obtain ⟨e1, e2, e3, e4, v, p, dk, cn, rn⟩ := env
  cases e1 with
  | some e => exact Or.inl ⟨_, rfl⟩
  | none =>
    cases e2 with
    | some e => exact Or.inl ⟨_, rfl⟩
    | none =>
      cases e3 with
      | some e => exact Or.inl ⟨_, rfl⟩
      | none =>
        cases e4 with
        | some e => exact Or.inr (Or.inl ⟨_, rfl⟩)
        | none =>
          cases v with
          | false => exact Or.inr (Or.inl ⟨_, rfl⟩)
          | true =>
            cases p with
            | some pw =>
              cases dk with
              | some e => exact Or.inr (Or.inl ⟨_, rfl⟩)
              | none =>
                cases cn with
                | false => exact Or.inr (Or.inl ⟨_, rfl⟩)
                | true =>
                  cases rn with
                  | some e => exact Or.inr (Or.inl ⟨_, rfl⟩)
                  | none => exact Or.inr (Or.inr rfl)
            | none =>
              cases rn with
              | some e => exact Or.inr (Or.inl ⟨_, rfl⟩)
              | none => exact Or.inr (Or.inr rfl)

/-- On success `loadRepository` hands back an open store and repository
with nothing closed yet. -/
theorem loadRepository_ok (env : LoadEnv)
    (h : (loadRepository env).res = .ok ()) :
    loadRepository env = ⟨.ok (), true, 0, true⟩ := by
  rcases loadRepository_cases env with ⟨msg, hc⟩ | ⟨msg, hc⟩ | hc
  · simp [hc] at h
  · simp [hc] at h
  · exact hc

/-- C5: on every tick of any of the five task-runner loops on which
`loadRepository` returns an error, the loop (after logging the error)
creates no report for that tick and continues to the next tick without
terminating. -/
theorem taskLoops_load_failure_skips_tick (env : LoadEnv) (msg : String)
    (b : BackupOpResult) (c r sy m purge : OpResult) (Retention now : Int)
    (h : (loadRepository env).res = .error msg) :
    ((backupTaskTick env b purge Retention now).report = none ∧
     (backupTaskTick env b purge Retention now).action = .continueLoop) ∧
    ((checkTaskTick env c).report = none ∧
     (checkTaskTick env c).action = .continueLoop) ∧
    ((restoreTaskTick env r).report = none ∧
     (restoreTaskTick env r).action = .continueLoop) ∧
    ((syncTaskTick env sy).report = none ∧
     (syncTaskTick env sy).action = .continueLoop) ∧
    ((maintenanceTaskTick env m purge Retention now).report = none ∧
     (maintenanceTaskTick env m purge Retention now).action = .continueLoop) := by
  rcases loadRepository_cases env with ⟨m2, hc⟩ | ⟨m2, hc⟩ | hc
  · simp [backupTaskTick, checkTaskTick, restoreTaskTick, syncTaskTick,
      maintenanceTaskTick, hc]
  · simp [backupTaskTick, checkTaskTick, restoreTaskTick, syncTaskTick,
      maintenanceTaskTick, hc]
  · rw [hc] at h; cases h

/-- Witness for C5: a tick whose `ReloadConfig` fails produces no
report in any loop and every loop keeps running. -/
theorem taskLoops_load_failure_skips_tick_witness :
    ((backupTaskTick ⟨some "boom", none, none, none, true, none, none, true, none⟩
        ⟨0, none, 0, none⟩ ⟨0, none⟩ 0 0).report = none ∧
     (backupTaskTick ⟨some "boom", none, none, none, true, none, none, true, none⟩
        ⟨0, none, 0, none⟩ ⟨0, none⟩ 0 0).action = .continueLoop) ∧
    ((checkTaskTick ⟨some "boom", none, none, none, true, none, none, true, none⟩
        ⟨0, none⟩).report = none ∧
     (checkTaskTick ⟨some "boom", none, none, none, true, none, none, true, none⟩
        ⟨0, none⟩).action = .continueLoop) ∧
    ((restoreTaskTick ⟨some "boom", none, none, none, true, none, none, true, none⟩
        ⟨0, none⟩).report = none ∧
     (restoreTaskTick ⟨some "boom", none, none, none, true, none, none, true, none⟩
        ⟨0, none⟩).action = .continueLoop) ∧
    ((syncTaskTick ⟨some "boom", none, none, none, true, none, none, true, none⟩
        ⟨0, none⟩).report = none ∧
     (syncTaskTick ⟨some "boom", none, none, none, true, none, none, true, none⟩
        ⟨0, none⟩).action = .continueLoop) ∧
    ((maintenanceTaskTick ⟨some "boom", none, none, none, true, none, none, true, none⟩
        ⟨0, none⟩ ⟨0, none⟩ 0 0).report = none ∧
     (maintenanceTaskTick ⟨some "boom", none, none, none, true, none, none, true, none⟩
        ⟨0, none⟩ ⟨0, none⟩ 0 0).action = .continueLoop) :=
  taskLoops_load_failure_skips_tick
    ⟨some "boom", none, none, none, true, none, none, true, none⟩
    "could not load configuration: boom"
    ⟨0, none, 0, none⟩ ⟨0, none⟩ ⟨0, none⟩ ⟨0, none⟩ ⟨0, none⟩ ⟨0, none⟩ 0 0 rfl

/-- C6: on every tick of every task-runner loop, an opened store is
closed exactly once and a created repository handle is closed exactly
once, on every code path; in particular, when `loadRepository` fails
after opening the store it has already closed it exactly once itself
(and the caller, which sees the error and skips the tick, closes
nothing further). -/
theorem every_open_closed_once (env : LoadEnv) (b : BackupOpResult)
    (c r sy m purge : OpResult) (Retention now : Int) :
    (∀ msg, (loadRepository env).res = .error msg →
      (loadRepository env).storeOpened = true →
      (loadRepository env).storeClosedInLoad = 1) ∧
    ((backupTaskTick env b purge Retention now).storeOpened = true →
      (backupTaskTick env b purge Retention now).storeCloses = 1) ∧
    ((backupTaskTick env b purge Retention now).repoCreated = true →
      (backupTaskTick env b purge Retention now).repoCloses = 1) ∧
    ((checkTaskTick env c).storeOpened = true →
      (checkTaskTick env c).storeCloses = 1) ∧
    ((checkTaskTick env c).repoCreated = true →
      (checkTaskTick env c).repoCloses = 1) ∧
    ((restoreTaskTick env r).storeOpened = true →
      (restoreTaskTick env r).storeCloses = 1) ∧
    ((restoreTaskTick env r).repoCreated = true →
      (restoreTaskTick env r).repoCloses = 1) ∧
    ((syncTaskTick env sy).storeOpened = true →
      (syncTaskTick env sy).storeCloses = 1) ∧
    ((syncTaskTick env sy).repoCreated = true →
      (syncTaskTick env sy).repoCloses = 1) ∧
    ((maintenanceTaskTick env m purge Retention now).storeOpened = true →
      (maintenanceTaskTick env m purge Retention now).storeCloses = 1) ∧
    ((maintenanceTaskTick env m purge Retention now).repoCreated = true →
      (maintenanceTaskTick env m purge Retention now).repoCloses = 1) := by
  rcases loadRepository_cases env with ⟨m2, hc⟩ | ⟨m2, hc⟩ | hc
  · refine ⟨fun msg h1 h2 => by simp [hc] at h2,
      ?_, ?_, ?_, ?_, ?_, ?_, ?_, ?_, ?_, ?_⟩ <;>
      (intro h;
       simp [backupTaskTick, checkTaskTick, restoreTaskTick, syncTaskTick,
         maintenanceTaskTick, hc] at h)
  · refine ⟨fun msg h1 h2 => by simp [hc],
      ?_, ?_, ?_, ?_, ?_, ?_, ?_, ?_, ?_, ?_⟩ <;>
      (intro h;
       simp [backupTaskTick, checkTaskTick, restoreTaskTick, syncTaskTick,
         maintenanceTaskTick, hc] at h ⊢)
  · refine ⟨fun msg h1 h2 => by simp [hc] at h1,
      ?_, ?_, ?_, ?_, ?_, ?_, ?_, ?_, ?_, ?_⟩
    · intro h
      by_cases hb : b.err ≠ none ∨ b.retval ≠ 0 <;>
        by_cases hR : Retention ≠ 0 <;>
        by_cases hp : purge.err ≠ none ∨ purge.retval ≠ 0 <;>
        by_cases hw : b.warning ≠ none <;>
        simp [backupTaskTick, hc, hb, hR, hp, hw]
    · intro h
      by_cases hb : b.err ≠ none ∨ b.retval ≠ 0 <;>
        by_cases hR : Retention ≠ 0 <;>
        by_cases hp : purge.err ≠ none ∨ purge.retval ≠ 0 <;>
        by_cases hw : b.warning ≠ none <;>
        simp [backupTaskTick, hc, hb, hR, hp, hw]
    · intro h
      by_cases hco : c.err ≠ none ∨ c.retval ≠ 0 <;> simp [checkTaskTick, hc, hco]
    · intro h
      by_cases hco : c.err ≠ none ∨ c.retval ≠ 0 <;> simp [checkTaskTick, hc, hco]
    · intro h
      by_cases hro : r.err ≠ none ∨ r.retval ≠ 0 <;> simp [restoreTaskTick, hc, hro]
    · intro h
      by_cases hro : r.err ≠ none ∨ r.retval ≠ 0 <;> simp [restoreTaskTick, hc, hro]
    · intro h
      by_cases hso : sy.err ≠ none ∨ sy.retval ≠ 0 <;> simp [syncTaskTick, hc, hso]
    · intro h
      by_cases hso : sy.err ≠ none ∨ sy.retval ≠ 0 <;> simp [syncTaskTick, hc, hso]
    · intro h
      by_cases hmo : m.err ≠ none ∨ m.retval ≠ 0 <;>
        by_cases hR : Retention ≠ 0 <;>
        by_cases hp : purge.err ≠ none ∨ purge.retval ≠ 0 <;>
        simp [maintenanceTaskTick, hc, hmo, hR, hp]
    · intro h
      by_cases hmo : m.err ≠ none ∨ m.retval ≠ 0 <;>
        by_cases hR : Retention ≠ 0 <;>
        by_cases hp : purge.err ≠ none ∨ purge.retval ≠ 0 <;>
        simp [maintenanceTaskTick, hc, hmo, hR, hp]

/-- Witness for C6: a fully successful backup tick closes its store and
repository exactly once each. -/
theorem every_open_closed_once_witness :
    (backupTaskTick ⟨none, none, none, none, true, none, none, true, none⟩
      ⟨0, none, 0, none⟩ ⟨0, none⟩ 0 0).storeCloses = 1 ∧
    (backupTaskTick ⟨none, none, none, none, true, none, none, true, none⟩
      ⟨0, none, 0, none⟩ ⟨0, none⟩ 0 0).repoCloses = 1 :=
  ⟨(every_open_closed_once ⟨none, none, none, none, true, none, none, true, none⟩
      ⟨0, none, 0, none⟩ ⟨0, none⟩ ⟨0, none⟩ ⟨0, none⟩ ⟨0, none⟩ ⟨0, none⟩
      0 0).2.1 rfl,
   (every_open_closed_once ⟨none, none, none, none, true, none, none, true, none⟩
      ⟨0, none, 0, none⟩ ⟨0, none⟩ ⟨0, none⟩ ⟨0, none⟩ ⟨0, none⟩ ⟨0, none⟩
      0 0).2.2.1 rfl⟩

/-- C4: on a backup or maintenance tick whose primary operation
succeeds (no error and exit code 0), the retention purge runs exactly
when `Retention` is non-zero and with cutoff `now - Retention`; and if
the purge then fails (error or non-zero exit code) the tick's report is
finalized as warning, never as failed. -/
theorem retention_purge_semantics (env : LoadEnv) (b : BackupOpResult)
    (m purge : OpResult) (Retention now : Int)
    (hload : (loadRepository env).res = .ok ()) :
    (b.err = none → b.retval = 0 →
      ((backupTaskTick env b purge Retention now).purgeCutoff =
        if Retention ≠ 0 then some (now - Retention) else none) ∧
      (Retention ≠ 0 → purge.err ≠ none ∨ purge.retval ≠ 0 →
        (backupTaskTick env b purge Retention now).report =
          some TaskFinal.warning ∧
        (backupTaskTick env b purge Retention now).report ≠
          some TaskFinal.failed)) ∧
    (m.err = none → m.retval = 0 →
      ((maintenanceTaskTick env m purge Retention now).purgeCutoff =
        if Retention ≠ 0 then some (now - Retention) else none) ∧
      (Retention ≠ 0 → purge.err ≠ none ∨ purge.retval ≠ 0 →
        (maintenanceTaskTick env m purge Retention now).report =
          some TaskFinal.warning ∧
        (maintenanceTaskTick env m purge Retention now).report ≠
          some TaskFinal.failed)) := by
  have hc := loadRepository_ok env hload
  refine ⟨fun hb1 hb2 => ⟨?_, fun hR hp => ?_⟩, fun hm1 hm2 => ⟨?_, fun hR hp => ?_⟩⟩
  · by_cases hR : Retention = 0
    · by_cases hw : b.warning ≠ none <;>
        simp [backupTaskTick, hc, hb1, hb2, hR, hw]
    · by_cases hp : purge.err ≠ none ∨ purge.retval ≠ 0 <;>
        by_cases hw : b.warning ≠ none <;>
        simp [backupTaskTick, hc, hb1, hb2, hR, hp, hw]
  · simp [backupTaskTick, hc, hb1, hb2, hR, hp]
  · by_cases hR : Retention = 0
    · simp [maintenanceTaskTick, hc, hm1, hm2, hR]
    · by_cases hp : purge.err ≠ none ∨ purge.retval ≠ 0 <;>
        simp [maintenanceTaskTick, hc, hm1, hm2, hR, hp]
  · simp [maintenanceTaskTick, hc, hm1, hm2, hR, hp]

/-- Witness for C4: on a successful backup with `Retention = 3600` and
`now = 10000`, a failing purge yields cutoff `6400` and a warning
report. -/
theorem retention_purge_semantics_witness :
    (backupTaskTick ⟨none, none, none, none, true, none, none, true, none⟩
      ⟨0, none, 0, none⟩ ⟨1, none⟩ 3600 10000).purgeCutoff = some 6400 ∧
    (backupTaskTick ⟨none, none, none, none, true, none, none, true, none⟩
      ⟨0, none, 0, none⟩ ⟨1, none⟩ 3600 10000).report =
      some TaskFinal.warning := by
  have H := (retention_purge_semantics
    ⟨none, none, none, none, true, none, none, true, none⟩
    ⟨0, none, 0, none⟩ ⟨0, none⟩ ⟨1, none⟩ 3600 10000 rfl).1 rfl rfl
  refine ⟨?_, (H.2 (by decide) (Or.inr (by decide))).1⟩
  rw [H.1]
  decide

/-- C8: a sync task whose `Direction` is none of the three recognized
values ("to", "from", "with") cancels the entire owning execution
context before any tick and returns: it performs no tick, hence never
opens a repository and never emits a report. -/
theorem syncTask_invalid_direction_fatal (Direction : String)
    (tickInputs : List (LoadEnv × OpResult))
    (h1 : Direction ≠ SyncDirectionTo) (h2 : Direction ≠ SyncDirectionFrom)
    (h3 : Direction ≠ SyncDirectionWith) :
    syncTask Direction tickInputs = ⟨true, []⟩ := by
  simp [syncTask, h1, h2, h3]

/-- Witness for C8: direction "sideways" is rejected up front. -/
theorem syncTask_invalid_direction_fatal_witness :
    syncTask "sideways"
      [(⟨none, none, none, none, true, none, none, true, none⟩, ⟨0, none⟩)] =
      ⟨true, []⟩ :=
  syncTask_invalid_direction_fatal "sideways" _
    (by decide) (by decide) (by decide)

end Plakar
